import Mathlib

/-
Verification development for the DSKY Phase 1 core: a shallow embedding of
the display-state record (dsky_display.py, class DisplayState), the channel
decoders (dsky_channel_decoder.py), and the 4-byte framing and receive loop
(dsky_main.py, class AGCCommunicator), together with theorems about the
framing round-trip, digit recovery, channel dispatch and loop behaviour.

Machine integers are modelled as Nat; bytes are Nat values below 256 and
the 15-bit channel value is a Nat below 32768.  Python lists become
List Nat, Python None/'+'/'-' sign slots become Option Char, and the
fallible digit recovery returns Option Nat (none = blank).
-/

set_option maxRecDepth 100000

/-- Embeds dsky_display.py, class DisplayState (the lock is concurrency
bookkeeping with no effect on the sequential field semantics and is not
modelled). -/
structure DisplayState where
  prog : List Nat
  verb : List Nat
  noun : List Nat
  r1 : List Nat
  r2 : List Nat
  r3 : List Nat
  r1_sign : Option Char
  r2_sign : Option Char
  r3_sign : Option Char
  comp_acty : Bool
  connected : Bool
  deriving DecidableEq, Repr

/-- Embeds DisplayState.__init__ (dsky_display.py lines 18-30).  Note the
source initialises `connected` to True. -/
def DisplayState.init : DisplayState :=
  { prog := [0, 0], verb := [0, 0], noun := [0, 0]
    r1 := [0, 0, 0, 0, 0], r2 := [0, 0, 0, 0, 0], r3 := [0, 0, 0, 0, 0]
    r1_sign := none, r2_sign := none, r3_sign := none
    comp_acty := false, connected := true }

/-- Embeds DisplayState.set_prog. -/
def DisplayState.set_prog (st : DisplayState) (m1 m2 : Nat) : DisplayState :=
  { st with prog := [m1, m2] }

/-- Embeds DisplayState.set_verb. -/
def DisplayState.set_verb (st : DisplayState) (v1 v2 : Nat) : DisplayState :=
  { st with verb := [v1, v2] }

/-- Embeds DisplayState.set_noun. -/
def DisplayState.set_noun (st : DisplayState) (n1 n2 : Nat) : DisplayState :=
  { st with noun := [n1, n2] }

/-- Embeds the SEVEN_SEGMENT_TO_DIGIT dict literal of
dsky_channel_decoder.py lines 13-25, entries in source order.  The Python
literal repeats the keys 0b11111, 0b00110 and 0b01111; a Python dict
literal keeps the LAST binding of a repeated key, which `dict_get` below
reproduces. -/
def SEVEN_SEGMENT_TO_DIGIT : List (Nat × Option Nat) :=
  [(0b11111, some 0), (0b00110, some 1), (0b11011, some 2), (0b01111, some 3),
   (0b00110, some 4), (0b01101, some 5), (0b11101, some 6), (0b00111, some 7),
   (0b11111, some 8), (0b01111, some 9), (0b00000, none)]

/-- Python dict lookup over the literal above: the last entry with the
given key wins (dict construction overwrites earlier duplicates); returns
none when the key is absent (`bits in dict` is false). -/
def dict_get (k : Nat) : Option (Option Nat) :=
  (SEVEN_SEGMENT_TO_DIGIT.reverse.find? fun p => p.1 == k).map Prod.snd

/-- Octal digit expansion, most significant digit first, as produced by
Python's oct(n)[2:].  Fuel-structured so that it evaluates in the kernel;
fuel n+1 always suffices. -/
def to_octal_aux : Nat → Nat → List Nat → List Nat
  | 0, _, acc => acc
  | fuel + 1, n, acc =>
    if n < 8 then n :: acc
    else to_octal_aux fuel (n / 8) (n % 8 :: acc)

/-- See to_octal_aux; octal_digits 0 = [0] matching oct(0) = '0o0'. -/
def octal_digits (n : Nat) : List Nat := to_octal_aux (n + 1) n []

/-- Embeds seven_segment_to_digit (dsky_channel_decoder.py lines 31-66):
stage 1 direct interpretation for 0-9, stage 2 dict lookup (may yield the
blank value none), stage 3 octal reinterpretation (two octal digits with a
leading 0, or a single octal digit), stage 4 modulo-10 fallback.  The
source's try/except is vacuous here: none of the operations fail. -/
def seven_segment_to_digit (bits : Nat) : Option Nat :=
  if bits ≤ 9 then some bits
  else
    match dict_get bits with
    | some v => v
    | none =>
      match octal_digits bits with
      | [d0, d1] => if d0 = 0 ∧ d1 ≤ 9 then some d1 else some (bits % 10)
      | [d0] => some d0
      | _ => some (bits % 10)

/-- Bits 11-14 of a channel-10 value (dsky_channel_decoder.py line 98). -/
def relay_code (value : Nat) : Nat := (value >>> 11) &&& 0b1111

/-- Bit 10 of a channel-10 value (line 99). -/
def sign_bit (value : Nat) : Nat := (value >>> 10) &&& 0b1

/-- Bits 5-9 of a channel-10 value (line 100). -/
def digit1_bits (value : Nat) : Nat := (value >>> 5) &&& 0b11111

/-- Bits 0-4 of a channel-10 value (line 101). -/
def digit2_bits (value : Nat) : Nat := value &&& 0b11111

/-- Embeds decode_channel10 (dsky_channel_decoder.py lines 69-165).
Python's `d or 0` for d : int-or-None maps both None and 0 to 0 and is
embedded as Option.getD 0 (identical results, since `0 or 0` is 0). -/
def decode_channel10 (value : Nat) (st : DisplayState) : DisplayState :=
  let relay := relay_code value
  let sb := sign_bit value
  let d1 := seven_segment_to_digit (digit1_bits value)
  let d2 := seven_segment_to_digit (digit2_bits value)
  if relay = 11 then st.set_prog (d1.getD 0) (d2.getD 0)
  else if relay = 10 then st.set_verb (d1.getD 0) (d2.getD 0)
  else if relay = 9 then st.set_noun (d1.getD 0) (d2.getD 0)
  else if relay = 8 then { st with r1 := (st.r1.set 0 (d1.getD 0)).set 1 (d2.getD 0) }
  else if relay = 7 then { st with r1 := (st.r1.set 2 (d1.getD 0)).set 3 (d2.getD 0),
                                   r1_sign := some (if sb ≠ 0 then '-' else '+') }
  else if relay = 6 then { st with r1 := (st.r1.set 3 (d1.getD 0)).set 4 (d2.getD 0) }
  else if relay = 5 then { st with r2 := (st.r2.set 0 (d1.getD 0)).set 1 (d2.getD 0),
                                   r2_sign := some (if sb ≠ 0 then '-' else '+') }
  else if relay = 4 then { st with r2 := (st.r2.set 2 (d1.getD 0)).set 3 (d2.getD 0) }
  else if relay = 3 then { st with r2 := st.r2.set 4 (d1.getD 0),
                                   r3 := st.r3.set 0 (d2.getD 0) }
  else if relay = 2 then { st with r3 := (st.r3.set 1 (d1.getD 0)).set 2 (d2.getD 0),
                                   r3_sign := some (if sb ≠ 0 then '-' else '+') }
  else if relay = 1 then { st with r3 := (st.r3.set 3 (d1.getD 0)).set 4 (d2.getD 0) }
  else if relay = 12 then st
  else st

/-- Embeds decode_channel11 (dsky_channel_decoder.py lines 168-184):
COMP ACTY is bit 1 of the value, Python bool(x) is x different from 0. -/
def decode_channel11 (value : Nat) (st : DisplayState) : DisplayState :=
  { st with comp_acty := ((value >>> 1) &&& 0b1) != 0 }

/-- Embeds AGCCommunicator.process_packet (dsky_main.py lines 189-206).
The source compares the incoming integer channel against the octal
literals 0o10, 0o11, 0o13, 0o163; the 0o13 and 0o163 branches are
explicit no-ops and every unmatched channel falls through unchanged. -/
def process_packet (channel value : Nat) (st : DisplayState) : DisplayState :=
  if channel = 0o10 then decode_channel10 value st
  else if channel = 0o11 then decode_channel11 value st
  else if channel = 0o13 then st
  else if channel = 0o163 then st
  else st

/-- Embeds the frame parsing half of AGCCommunicator.receive_packet
(dsky_main.py lines 135-154): the four tag-bit sanity checks followed by
channel/value extraction.  Returns none when any tag check fails. -/
def decode_frame : List Nat → Option (Nat × Nat)
  | [b0, b1, b2, b3] =>
    if b0 &&& 0xF0 ≠ 0x00 then none
    else if b1 &&& 0xC0 ≠ 0x40 then none
    else if b2 &&& 0xC0 ≠ 0x80 then none
    else if b3 &&& 0xC0 ≠ 0xC0 then none
    else some (((b0 &&& 0x0F) <<< 3) ||| ((b1 &&& 0x38) >>> 3),
               (((b1 &&& 0x07) <<< 12) ||| ((b2 &&& 0x3F) <<< 6)) ||| (b3 &&& 0x3F))
  | _ => none

/-- Modelled from the spec: the inverse packing of the wire-frame layout in
spec section 6 (byte0 = 0x0 tag + channel high nibble, byte1 = 0b01 tag +
channel low 3 bits + value bits 14-12, byte2 = 0b10 tag + value bits 11-6,
byte3 = 0b11 tag + value bits 5-0).  The repository has no encoder (the
peer produces frames); this definition exists only to state the round-trip
claim. -/
def encode_frame (channel value : Nat) : List Nat :=
  [channel >>> 3,
   (0x40 ||| ((channel &&& 0x07) <<< 3)) ||| (value >>> 12),
   0x80 ||| ((value >>> 6) &&& 0x3F),
   0xC0 ||| (value &&& 0x3F)]

/-- One outcome of a socket.recv_into call on the non-blocking socket:
a delivered byte chunk (an empty chunk is a zero-byte read, i.e. the peer
closed), a socket.timeout, a BlockingIOError, or any other socket error. -/
inductive RecvOutcome where
  | chunk (bs : List Nat)
  | timeout
  | wouldBlock
  | err
  deriving DecidableEq, Repr

/-- Result of the byte-accumulation loop of receive_packet. -/
inductive ReadRes where
  | full (buf : List Nat)
  | closed
  | timeout
  | wouldBlock
  | errored
  deriving DecidableEq, Repr

/-- Embeds the accumulation loop of AGCCommunicator.receive_packet
(dsky_main.py lines 121-133 with the exception handlers of lines 156-162):
`left` bytes remain to be read into the accumulator `acc`; each recv_into
consumes one outcome of the modelled stream.  A zero-byte read
(`chunk []`) is the peer closing; timeout / would-block / other errors
abort the loop.  recv_into delivers at most `left` bytes, which
`bs.take left` enforces on the trace. -/
def recv_frame : List RecvOutcome → Nat → List Nat → ReadRes × List RecvOutcome
  | s, 0, acc => (ReadRes.full acc, s)
  | [], _ + 1, _ => (ReadRes.wouldBlock, [])
  | RecvOutcome.chunk bs :: s, left + 1, acc =>
    if bs.length = 0 then (ReadRes.closed, s)
    else recv_frame s (left + 1 - bs.length) (acc ++ bs.take (left + 1))
  | RecvOutcome.timeout :: s, _ + 1, _ => (ReadRes.timeout, s)
  | RecvOutcome.wouldBlock :: s, _ + 1, _ => (ReadRes.wouldBlock, s)
  | RecvOutcome.err :: s, _ + 1, _ => (ReadRes.errored, s)

/-- Embeds AGCCommunicator.receive_packet (dsky_main.py lines 114-162) as
a whole: a fresh 4-byte read (input_buffer, left_to_read and view are
locals of the Python function, so every call starts with left_to_read = 4),
then parsing.  Every non-full outcome returns None in the source - the
closed, timeout, would-block and error paths are indistinguishable to the
caller. -/
def receive_packet (s : List RecvOutcome) : Option (Nat × Nat) × List RecvOutcome :=
  match recv_frame s 4 [] with
  | (ReadRes.full buf, s') => (decode_frame buf, s')
  | (_, s') => (none, s')

/-- State of the communication loop: the unread remainder of the modelled
byte stream, the `self.running` flag, and the shared display state. -/
structure CommState where
  stream : List RecvOutcome
  running : Bool
  display : DisplayState
  deriving DecidableEq, Repr

/-- Embeds one iteration of the while-loop body of
AGCCommunicator.communication_loop (dsky_main.py lines 175-187): when
`running` is set, call receive_packet and process the packet if one was
returned; the sleep has no state effect.  Nothing in the body modifies
`running` or breaks out of the loop. -/
def communication_loop_step (c : CommState) : CommState :=
  if c.running then
    match receive_packet c.stream with
    | (some (ch, v), s') => { c with stream := s', display := process_packet ch v c.display }
    | (none, s') => { c with stream := s' }
  else c

/-- All digit slots of the display hold values in 0-9. -/
def digitsValid (st : DisplayState) : Prop :=
  (∀ d ∈ st.prog, d ≤ 9) ∧ (∀ d ∈ st.verb, d ≤ 9) ∧ (∀ d ∈ st.noun, d ≤ 9) ∧
  (∀ d ∈ st.r1, d ≤ 9) ∧ (∀ d ∈ st.r2, d ≤ 9) ∧ (∀ d ∈ st.r3, d ≤ 9)

instance (st : DisplayState) : Decidable (digitsValid st) := by
  unfold digitsValid; infer_instance

-- Theorems ------------------------------------------------------------------

/-- Digit recovery on any 5-bit input yields some digit at most 9 (and in
particular never blank); stated in getD form so that it is decidable. -/
lemma sstd_some_le :
    ∀ b < 32, seven_segment_to_digit b = some ((seven_segment_to_digit b).getD 0) ∧
      (seven_segment_to_digit b).getD 0 ≤ 9 := by decide

lemma and_two_pow_sub_one (b k : Nat) : b &&& (2 ^ k - 1) = b % 2 ^ k :=
  Nat.and_pow_two_sub_one_eq_mod b k

lemma and_15 (b : Nat) : b &&& 15 = b % 16 := and_two_pow_sub_one b 4

lemma and_7 (b : Nat) : b &&& 7 = b % 8 := and_two_pow_sub_one b 3

lemma and_31 (b : Nat) : b &&& 31 = b % 32 := and_two_pow_sub_one b 5

lemma and_63 (b : Nat) : b &&& 63 = b % 64 := and_two_pow_sub_one b 6

lemma shiftR3 (b : Nat) : b >>> 3 = b / 8 := by
  rw [Nat.shiftRight_eq_div_pow]

lemma shiftR5 (b : Nat) : b >>> 5 = b / 32 := by
  rw [Nat.shiftRight_eq_div_pow]

lemma shiftR6 (b : Nat) : b >>> 6 = b / 64 := by
  rw [Nat.shiftRight_eq_div_pow]

lemma shiftR10 (b : Nat) : b >>> 10 = b / 1024 := by
  rw [Nat.shiftRight_eq_div_pow]

lemma shiftR11 (b : Nat) : b >>> 11 = b / 2048 := by
  rw [Nat.shiftRight_eq_div_pow]

lemma shiftR12 (b : Nat) : b >>> 12 = b / 4096 := by
  rw [Nat.shiftRight_eq_div_pow]

lemma and_56_shift : ∀ b < 256, (b &&& 0x38) >>> 3 = b / 8 % 8 := by decide

lemma tag0_iff : ∀ b < 256, (b &&& 0xF0 = 0x00 ↔ b < 16) := by decide

lemma tag1_iff : ∀ b < 256, (b &&& 0xC0 = 0x40 ↔ 64 ≤ b ∧ b < 128) := by decide

lemma tag2_iff : ∀ b < 256, (b &&& 0xC0 = 0x80 ↔ 128 ≤ b ∧ b < 192) := by decide

lemma tag3_iff : ∀ b < 256, (b &&& 0xC0 = 0xC0 ↔ 192 ≤ b ∧ b < 256) := by decide

lemma chan_or : ∀ a < 16, ∀ c < 8, (a <<< 3) ||| c = 8 * a + c := by decide

lemma or64 : ∀ c < 8, ∀ x < 8, (0x40 ||| (c <<< 3)) ||| x = 64 + 8 * c + x := by decide

lemma or128 : ∀ y < 64, 0x80 ||| y = 128 + y := by decide

lemma or192 : ∀ z < 64, 0xC0 ||| z = 192 + z := by decide

lemma val_or : ∀ x < 8, ∀ y < 64, ∀ z < 64,
    ((x <<< 12) ||| (y <<< 6)) ||| z = 4096 * x + 64 * y + z := by decide

lemma recv_frame_zero (s : List RecvOutcome) (acc : List Nat) :
    recv_frame s 0 acc = (ReadRes.full acc, s) := by
  cases s with
  | nil => rfl
  | cons o t => cases o <;> rfl

lemma recv_frame_chunk (bs : List Nat) (s : List RecvOutcome) (left : Nat) (acc : List Nat)
    (hl : left ≠ 0) (hbs : bs ≠ []) :
    recv_frame (RecvOutcome.chunk bs :: s) left acc
      = recv_frame s (left - bs.length) (acc ++ bs.take left) := by
  obtain ⟨m, rfl⟩ : ∃ m, left = m + 1 := ⟨left - 1, by omega⟩
  rw [recv_frame]
  rw [if_neg (by simpa [List.length_eq_zero] using hbs)]

lemma recv_frame_closed (s : List RecvOutcome) (left : Nat) (acc : List Nat) (hl : left ≠ 0) :
    recv_frame (RecvOutcome.chunk [] :: s) left acc = (ReadRes.closed, s) := by
  obtain ⟨m, rfl⟩ : ∃ m, left = m + 1 := ⟨left - 1, by omega⟩
  rw [recv_frame]
  simp

lemma recv_frame_timeout (s : List RecvOutcome) (left : Nat) (acc : List Nat) (hl : left ≠ 0) :
    recv_frame (RecvOutcome.timeout :: s) left acc = (ReadRes.timeout, s) := by
  obtain ⟨m, rfl⟩ : ∃ m, left = m + 1 := ⟨left - 1, by omega⟩
  rw [recv_frame]

lemma recv_frame_wouldBlock (s : List RecvOutcome) (left : Nat) (acc : List Nat) (hl : left ≠ 0) :
    recv_frame (RecvOutcome.wouldBlock :: s) left acc = (ReadRes.wouldBlock, s) := by
  obtain ⟨m, rfl⟩ : ∃ m, left = m + 1 := ⟨left - 1, by omega⟩
  rw [recv_frame]

lemma recv_frame_err (s : List RecvOutcome) (left : Nat) (acc : List Nat) (hl : left ≠ 0) :
    recv_frame (RecvOutcome.err :: s) left acc = (ReadRes.errored, s) := by
  obtain ⟨m, rfl⟩ : ∃ m, left = m + 1 := ⟨left - 1, by omega⟩
  rw [recv_frame]

/-- Encoding a (channel, value) pair and decoding the produced frame
recovers the pair. -/
lemma parse_encode (ch v : Nat) (hch : ch < 128) (hv : v < 32768) :
    decode_frame (encode_frame ch v) = some (ch, v) := by
  have e1 : (0x40 ||| ((ch &&& 0x07) <<< 3)) ||| (v >>> 12)
      = 64 + 8 * (ch % 8) + v / 4096 := by
    rw [and_7, shiftR12, or64 _ (by omega) _ (by omega)]
  have e2 : 0x80 ||| ((v >>> 6) &&& 0x3F) = 128 + v / 64 % 64 := by
    rw [shiftR6, and_63, or128 _ (by omega)]
  have e3 : 0xC0 ||| (v &&& 0x3F) = 192 + v % 64 := by
    rw [and_63, or192 _ (by omega)]
  unfold encode_frame
  rw [shiftR3, e1, e2, e3]
  have t0 : (ch / 8) &&& 0xF0 = 0x00 := (tag0_iff _ (by omega)).mpr (by omega)
  have t1 : (64 + 8 * (ch % 8) + v / 4096) &&& 0xC0 = 0x40 :=
    (tag1_iff _ (by omega)).mpr (by omega)
  have t2 : (128 + v / 64 % 64) &&& 0xC0 = 0x80 := (tag2_iff _ (by omega)).mpr (by omega)
  have t3 : (192 + v % 64) &&& 0xC0 = 0xC0 := (tag3_iff _ (by omega)).mpr (by omega)
  simp only [decode_frame]
  rw [if_neg (by simp [t0]), if_neg (by simp [t1]), if_neg (by simp [t2]),
      if_neg (by simp [t3])]
  have hcb : (64 + 8 * (ch % 8) + v / 4096) / 8 % 8 = ch % 8 := by omega
  have hc : (((ch / 8) &&& 0x0F) <<< 3) ||| (((64 + 8 * (ch % 8) + v / 4096) &&& 0x38) >>> 3)
      = ch := by
    rw [and_15, Nat.mod_eq_of_lt (by omega), and_56_shift _ (by omega), hcb]
    rw [chan_or _ (by omega) _ (by omega)]
    omega
  have hx : (64 + 8 * (ch % 8) + v / 4096) &&& 0x07 = v / 4096 := by
    rw [and_7]; omega
  have hy : (128 + v / 64 % 64) &&& 0x3F = v / 64 % 64 := by
    rw [and_63]; omega
  have hz : (192 + v % 64) &&& 0x3F = v % 64 := by
    rw [and_63]; omega
  have hvv : (((v / 4096) <<< 12) ||| ((v / 64 % 64) <<< 6)) ||| (v % 64) = v := by
    rw [val_or _ (by omega) _ (by omega) _ (by omega)]
    omega
  rw [hx, hy, hz]
  rw [hc, hvv]

/-- C4: the digit-recovery function is total on 5-bit inputs: for every
bits in [0, 31] it returns either a digit in [0, 9] or blank, and never
fails (its embedding is a total function into Option Nat; the source's
try/except never catches anything on this domain). -/
theorem c4_recover_digit_total :
    ∀ bits < 32, seven_segment_to_digit bits = none ∨
      ∃ d, seven_segment_to_digit bits = some d ∧ d ≤ 9 := by
  intro bits hb
  obtain ⟨h1, h2⟩ := sstd_some_le bits hb
  exact Or.inr ⟨_, h1, h2⟩

theorem c4_witness :
    13 < 32 ∧ (seven_segment_to_digit 13 = none ∨
      ∃ d, seven_segment_to_digit 13 = some d ∧ d ≤ 9) :=
  ⟨by decide, c4_recover_digit_total 13 (by decide)⟩

/-- C6 counterexample: the claim says the connectivity flag is false when
the display state is created, but DisplayState.__init__ sets
self.connected = True (dsky_display.py line 29). -/
theorem c6_counterexample : ¬ DisplayState.init.connected = false := by decide

/-- C6 amended: at creation time the connectivity flag `connected` is
true (the source initialises it optimistically); all digit fields start at
0, the signs unset, and comp_acty false. -/
theorem c6_init_state :
    DisplayState.init.connected = true ∧
    DisplayState.init.prog = [0, 0] ∧ DisplayState.init.verb = [0, 0] ∧
    DisplayState.init.noun = [0, 0] ∧
    DisplayState.init.r1 = [0, 0, 0, 0, 0] ∧
    DisplayState.init.r2 = [0, 0, 0, 0, 0] ∧
    DisplayState.init.r3 = [0, 0, 0, 0, 0] ∧
    DisplayState.init.r1_sign = none ∧ DisplayState.init.r2_sign = none ∧
    DisplayState.init.r3_sign = none ∧ DisplayState.init.comp_acty = false := by
  decide

/-- C7: processing an event on channel 11 (the octal channel name, integer
0o11) writes exactly bit 1 of the value as the boolean comp_acty and
changes no other display-state field. -/
theorem c7_channel11 (v : Nat) (st : DisplayState) :
    ((process_packet 0o11 v st).comp_acty = true ↔ v.testBit 1 = true) ∧
    process_packet 0o11 v st = { st with comp_acty := ((v >>> 1) &&& 0b1) != 0 } := by
  constructor
  · have h : (((v >>> 1) &&& 1) != 0) = v.testBit 1 := by
      simp [Nat.testBit, Nat.land_comm]
    show (((v >>> 1) &&& 1) != 0) = true ↔ _
    rw [h]
  · rfl

/-- C8: a packet on any channel other than the handled ones is a no-op
for every value whatsoever, and a channel-10 value whose relay code is
outside 1-12 is a no-op; no display-state field changes and (by totality
of the embedding) no error is raised. -/
theorem c8_unknown_ignored (ch v : Nat) (st : DisplayState)
    (hch : ch ≠ 0o10 ∧ ch ≠ 0o11) :
    process_packet ch v st = st ∧
    (relay_code v < 1 ∨ 12 < relay_code v → decode_channel10 v st = st) := by
  constructor
  · unfold process_packet
    rw [if_neg hch.1, if_neg hch.2]
    split_ifs <;> rfl
  · intro hrelay
    have h11 : relay_code v ≠ 11 := by omega
    have h10 : relay_code v ≠ 10 := by omega
    have h9 : relay_code v ≠ 9 := by omega
    have h8 : relay_code v ≠ 8 := by omega
    have h7 : relay_code v ≠ 7 := by omega
    have h6 : relay_code v ≠ 6 := by omega
    have h5 : relay_code v ≠ 5 := by omega
    have h4 : relay_code v ≠ 4 := by omega
    have h3 : relay_code v ≠ 3 := by omega
    have h2 : relay_code v ≠ 2 := by omega
    have h1 : relay_code v ≠ 1 := by omega
    have h12 : relay_code v ≠ 12 := by omega
    simp only [decode_channel10, if_neg h11, if_neg h10, if_neg h9, if_neg h8, if_neg h7,
               if_neg h6, if_neg h5, if_neg h4, if_neg h3, if_neg h2, if_neg h1, if_neg h12]

theorem c8_witness :
    process_packet 5 22566 DisplayState.init = DisplayState.init ∧
    decode_channel10 26624 DisplayState.init = DisplayState.init :=
  ⟨(c8_unknown_ignored 5 22566 DisplayState.init ⟨by decide, by decide⟩).1,
   (c8_unknown_ignored 5 26624 DisplayState.init ⟨by decide, by decide⟩).2 (by decide)⟩

/-- C5: on a channel-10 value with relay field 7, the decoder writes the
recovered first digit into r1[2], the recovered second digit into r1[3],
and sets r1_sign negative exactly when bit 10 is 1 (positive when 0);
every other r1 slot keeps its value. -/
theorem c5_relay7 (v : Nat) (st : DisplayState) (a b c d e : Nat)
    (hr1 : st.r1 = [a, b, c, d, e]) (hrelay : relay_code v = 7) :
    ∃ d1 d2, seven_segment_to_digit (digit1_bits v) = some d1 ∧
      seven_segment_to_digit (digit2_bits v) = some d2 ∧
      (decode_channel10 v st).r1 = [a, b, d1, d2, e] ∧
      (decode_channel10 v st).r1_sign =
        some (if sign_bit v = 1 then '-' else '+') := by
  have hb1 : digit1_bits v < 32 := by
    have h := Nat.and_le_right (n := v >>> 5) (m := 0b11111)
    unfold digit1_bits
    omega
  have hb2 : digit2_bits v < 32 := by
    have h := Nat.and_le_right (n := v) (m := 0b11111)
    unfold digit2_bits
    omega
  obtain ⟨hd1, hle1⟩ := sstd_some_le (digit1_bits v) hb1
  obtain ⟨hd2, hle2⟩ := sstd_some_le (digit2_bits v) hb2
  have hsb : sign_bit v = 0 ∨ sign_bit v = 1 := by
    have h := Nat.and_le_right (n := v >>> 10) (m := 0b1)
    unfold sign_bit
    omega
  refine ⟨_, _, hd1, hd2, ?_, ?_⟩
  · simp only [decode_channel10, hrelay]
    rw [hr1]
    rfl
  · rcases hsb with h | h <;>
      simp only [decode_channel10, hrelay, h] <;> rfl

theorem c5_witness :
    (decode_channel10 15460 DisplayState.init).r1 = [0, 0, 3, 4, 0] ∧
    (decode_channel10 15460 DisplayState.init).r1_sign = some '-' := by
  obtain ⟨d1, d2, hd1, hd2, hr, hs⟩ :=
    c5_relay7 15460 DisplayState.init 0 0 0 0 0 rfl (by decide)
  have e1 : d1 = 3 := by
    have : seven_segment_to_digit (digit1_bits 15460) = some 3 := by decide
    rw [this] at hd1
    exact (Option.some.injEq _ _).mp hd1.symm
  have e2 : d2 = 4 := by
    have : seven_segment_to_digit (digit2_bits 15460) = some 4 := by decide
    rw [this] at hd2
    exact (Option.some.injEq _ _).mp hd2.symm
  rw [e1, e2] at hr
  refine ⟨hr, ?_⟩
  rw [hs]
  decide


/-- Case analysis of decode_channel10: one equation per relay branch of
the source dispatch, plus the fall-through for relay codes outside 1-12. -/
lemma decode10_dispatch (v : Nat) (st : DisplayState) :
    (relay_code v = 11 → decode_channel10 v st =
      { st with prog := [(seven_segment_to_digit (digit1_bits v)).getD 0,
                         (seven_segment_to_digit (digit2_bits v)).getD 0] }) ∧
    (relay_code v = 10 → decode_channel10 v st =
      { st with verb := [(seven_segment_to_digit (digit1_bits v)).getD 0,
                         (seven_segment_to_digit (digit2_bits v)).getD 0] }) ∧
    (relay_code v = 9 → decode_channel10 v st =
      { st with noun := [(seven_segment_to_digit (digit1_bits v)).getD 0,
                         (seven_segment_to_digit (digit2_bits v)).getD 0] }) ∧
    (relay_code v = 8 → decode_channel10 v st =
      { st with r1 := (st.r1.set 0 ((seven_segment_to_digit (digit1_bits v)).getD 0)).set 1
                        ((seven_segment_to_digit (digit2_bits v)).getD 0) }) ∧
    (relay_code v = 7 → decode_channel10 v st =
      { st with r1 := (st.r1.set 2 ((seven_segment_to_digit (digit1_bits v)).getD 0)).set 3
                        ((seven_segment_to_digit (digit2_bits v)).getD 0),
                r1_sign := some (if sign_bit v ≠ 0 then '-' else '+') }) ∧
    (relay_code v = 6 → decode_channel10 v st =
      { st with r1 := (st.r1.set 3 ((seven_segment_to_digit (digit1_bits v)).getD 0)).set 4
                        ((seven_segment_to_digit (digit2_bits v)).getD 0) }) ∧
    (relay_code v = 5 → decode_channel10 v st =
      { st with r2 := (st.r2.set 0 ((seven_segment_to_digit (digit1_bits v)).getD 0)).set 1
                        ((seven_segment_to_digit (digit2_bits v)).getD 0),
                r2_sign := some (if sign_bit v ≠ 0 then '-' else '+') }) ∧
    (relay_code v = 4 → decode_channel10 v st =
      { st with r2 := (st.r2.set 2 ((seven_segment_to_digit (digit1_bits v)).getD 0)).set 3
                        ((seven_segment_to_digit (digit2_bits v)).getD 0) }) ∧
    (relay_code v = 3 → decode_channel10 v st =
      { st with r2 := st.r2.set 4 ((seven_segment_to_digit (digit1_bits v)).getD 0),
                r3 := st.r3.set 0 ((seven_segment_to_digit (digit2_bits v)).getD 0) }) ∧
    (relay_code v = 2 → decode_channel10 v st =
      { st with r3 := (st.r3.set 1 ((seven_segment_to_digit (digit1_bits v)).getD 0)).set 2
                        ((seven_segment_to_digit (digit2_bits v)).getD 0),
                r3_sign := some (if sign_bit v ≠ 0 then '-' else '+') }) ∧
    (relay_code v = 1 → decode_channel10 v st =
      { st with r3 := (st.r3.set 3 ((seven_segment_to_digit (digit1_bits v)).getD 0)).set 4
                        ((seven_segment_to_digit (digit2_bits v)).getD 0) }) ∧
    (relay_code v = 12 → decode_channel10 v st = st) ∧
    (relay_code v = 0 ∨ 12 < relay_code v → decode_channel10 v st = st) := by
  refine ⟨?_, ?_, ?_, ?_, ?_, ?_, ?_, ?_, ?_, ?_, ?_, ?_, ?_⟩
  · intro h
    simp only [decode_channel10, h, DisplayState.set_prog]
    rfl
  · intro h
    simp only [decode_channel10, h, DisplayState.set_verb]
    rfl
  · intro h
    simp only [decode_channel10, h, DisplayState.set_noun]
    rfl
  · intro h
    simp only [decode_channel10, h]
    rfl
  · intro h
    simp only [decode_channel10, h]
    rfl
  · intro h
    simp only [decode_channel10, h]
    rfl
  · intro h
    simp only [decode_channel10, h]
    rfl
  · intro h
    simp only [decode_channel10, h]
    rfl
  · intro h
    simp only [decode_channel10, h]
    rfl
  · intro h
    simp only [decode_channel10, h]
    rfl
  · intro h
    simp only [decode_channel10, h]
    rfl
  · intro h
    simp only [decode_channel10, h]
    rfl
  · intro hout
    have h11 : relay_code v ≠ 11 := by omega
    have h10 : relay_code v ≠ 10 := by omega
    have h9 : relay_code v ≠ 9 := by omega
    have h8 : relay_code v ≠ 8 := by omega
    have h7 : relay_code v ≠ 7 := by omega
    have h6 : relay_code v ≠ 6 := by omega
    have h5 : relay_code v ≠ 5 := by omega
    have h4 : relay_code v ≠ 4 := by omega
    have h3 : relay_code v ≠ 3 := by omega
    have h2 : relay_code v ≠ 2 := by omega
    have h1 : relay_code v ≠ 1 := by omega
    have h12 : relay_code v ≠ 12 := by omega
    simp only [decode_channel10, if_neg h11, if_neg h10, if_neg h9, if_neg h8, if_neg h7,
               if_neg h6, if_neg h5, if_neg h4, if_neg h3, if_neg h2, if_neg h1, if_neg h12]

/-- C9: channel-10 decoding has partial-update semantics: for each relay
code 1-11 exactly the fields of the dispatch table change (expressed as a
record update of the previous state, so every field not named - all other
digit lists, the signs not listed, comp_acty and connected - keeps its
value, and List.set leaves every other index of a named digit list
intact); relay 12 changes nothing. -/
theorem c9_partial_update (v : Nat) (st : DisplayState) :
    (relay_code v = 11 → decode_channel10 v st =
      { st with prog := [(seven_segment_to_digit (digit1_bits v)).getD 0,
                         (seven_segment_to_digit (digit2_bits v)).getD 0] }) ∧
    (relay_code v = 10 → decode_channel10 v st =
      { st with verb := [(seven_segment_to_digit (digit1_bits v)).getD 0,
                         (seven_segment_to_digit (digit2_bits v)).getD 0] }) ∧
    (relay_code v = 9 → decode_channel10 v st =
      { st with noun := [(seven_segment_to_digit (digit1_bits v)).getD 0,
                         (seven_segment_to_digit (digit2_bits v)).getD 0] }) ∧
    (relay_code v = 8 → decode_channel10 v st =
      { st with r1 := (st.r1.set 0 ((seven_segment_to_digit (digit1_bits v)).getD 0)).set 1
                        ((seven_segment_to_digit (digit2_bits v)).getD 0) }) ∧
    (relay_code v = 7 → decode_channel10 v st =
      { st with r1 := (st.r1.set 2 ((seven_segment_to_digit (digit1_bits v)).getD 0)).set 3
                        ((seven_segment_to_digit (digit2_bits v)).getD 0),
                r1_sign := some (if sign_bit v ≠ 0 then '-' else '+') }) ∧
    (relay_code v = 6 → decode_channel10 v st =
      { st with r1 := (st.r1.set 3 ((seven_segment_to_digit (digit1_bits v)).getD 0)).set 4
                        ((seven_segment_to_digit (digit2_bits v)).getD 0) }) ∧
    (relay_code v = 5 → decode_channel10 v st =
      { st with r2 := (st.r2.set 0 ((seven_segment_to_digit (digit1_bits v)).getD 0)).set 1
                        ((seven_segment_to_digit (digit2_bits v)).getD 0),
                r2_sign := some (if sign_bit v ≠ 0 then '-' else '+') }) ∧
    (relay_code v = 4 → decode_channel10 v st =
      { st with r2 := (st.r2.set 2 ((seven_segment_to_digit (digit1_bits v)).getD 0)).set 3
                        ((seven_segment_to_digit (digit2_bits v)).getD 0) }) ∧
    (relay_code v = 3 → decode_channel10 v st =
      { st with r2 := st.r2.set 4 ((seven_segment_to_digit (digit1_bits v)).getD 0),
                r3 := st.r3.set 0 ((seven_segment_to_digit (digit2_bits v)).getD 0) }) ∧
    (relay_code v = 2 → decode_channel10 v st =
      { st with r3 := (st.r3.set 1 ((seven_segment_to_digit (digit1_bits v)).getD 0)).set 2
                        ((seven_segment_to_digit (digit2_bits v)).getD 0),
                r3_sign := some (if sign_bit v ≠ 0 then '-' else '+') }) ∧
    (relay_code v = 1 → decode_channel10 v st =
      { st with r3 := (st.r3.set 3 ((seven_segment_to_digit (digit1_bits v)).getD 0)).set 4
                        ((seven_segment_to_digit (digit2_bits v)).getD 0) }) ∧
    (relay_code v = 12 → decode_channel10 v st = st) := by
  obtain ⟨g11, g10, g9, g8, g7, g6, g5, g4, g3, g2, g1, g12, _⟩ := decode10_dispatch v st
  exact ⟨g11, g10, g9, g8, g7, g6, g5, g4, g3, g2, g1, g12⟩

theorem c9_witness :
    decode_channel10 15460 DisplayState.init =
      { DisplayState.init with r1 := [0, 0, 3, 4, 0], r1_sign := some '-' } := by
  have h := (c9_partial_update 15460 DisplayState.init).2.2.2.2.1 (by decide)
  rw [h]
  decide

lemma pair_le (a b : Nat) (ha : a ≤ 9) (hb : b ≤ 9) : ∀ x ∈ [a, b], x ≤ 9 := by
  intro x hx
  simp only [List.mem_cons, List.mem_singleton, List.not_mem_nil] at hx
  rcases hx with h | h | h
  · omega
  · omega
  · exact absurd h (by simp)

lemma set_le (l : List Nat) (i a : Nat) (hl : ∀ x ∈ l, x ≤ 9) (ha : a ≤ 9) :
    ∀ x ∈ l.set i a, x ≤ 9 := by
  intro x hx
  rcases List.mem_or_eq_of_mem_set hx with h | h
  · exact hl x h
  · omega

lemma d1g_le (v : Nat) : (seven_segment_to_digit (digit1_bits v)).getD 0 ≤ 9 := by
  refine (sstd_some_le (digit1_bits v) ?_).2
  have h := Nat.and_le_right (n := v >>> 5) (m := 0b11111)
  unfold digit1_bits
  omega

lemma d2g_le (v : Nat) : (seven_segment_to_digit (digit2_bits v)).getD 0 ≤ 9 := by
  refine (sstd_some_le (digit2_bits v) ?_).2
  have h := Nat.and_le_right (n := v) (m := 0b11111)
  unfold digit2_bits
  omega

/-- C10: on every 5-bit input the digit-recovery function returns an
actual digit in [0, 9], never blank (the all-zeros blank entry of the
lookup table is shadowed by the direct-interpretation stage that already
handles 0), so the dispatcher's blank-to-0 substitution never triggers and
every digit decode_channel10 writes into the display state stays in
[0, 9]. -/
theorem c10_digits_in_range :
    (∀ bits < 32, ∃ d, seven_segment_to_digit bits = some d ∧ d ≤ 9) ∧
    ∀ v st, digitsValid st → digitsValid (decode_channel10 v st) := by
  constructor
  · intro bits hb
    obtain ⟨h1, h2⟩ := sstd_some_le bits hb
    exact ⟨_, h1, h2⟩
  · intro v st hst
    obtain ⟨hp, hvb, hn, h1, h2, h3⟩ := hst
    have g1 := d1g_le v
    have g2 := d2g_le v
    obtain ⟨g11, g10, g9, g8, g7, g6, g5, g4, g3, g2', g1', g12, gout⟩ :=
      decode10_dispatch v st
    have hr : relay_code v ≤ 15 := by
      have h := Nat.and_le_right (n := v >>> 11) (m := 0b1111)
      unfold relay_code
      omega
    rcases (by omega : relay_code v = 0 ∨ relay_code v = 1 ∨ relay_code v = 2 ∨
        relay_code v = 3 ∨ relay_code v = 4 ∨ relay_code v = 5 ∨ relay_code v = 6 ∨
        relay_code v = 7 ∨ relay_code v = 8 ∨ relay_code v = 9 ∨ relay_code v = 10 ∨
        relay_code v = 11 ∨ relay_code v = 12 ∨ 12 < relay_code v) with
      h | h | h | h | h | h | h | h | h | h | h | h | h | h
    · rw [gout (Or.inl h)]
      exact ⟨hp, hvb, hn, h1, h2, h3⟩
    · rw [g1' h]
      exact ⟨hp, hvb, hn, h1, h2, set_le _ _ _ (set_le _ _ _ h3 g1) g2⟩
    · rw [g2' h]
      exact ⟨hp, hvb, hn, h1, h2, set_le _ _ _ (set_le _ _ _ h3 g1) g2⟩
    · rw [g3 h]
      exact ⟨hp, hvb, hn, h1, set_le _ _ _ h2 g1, set_le _ _ _ h3 g2⟩
    · rw [g4 h]
      exact ⟨hp, hvb, hn, h1, set_le _ _ _ (set_le _ _ _ h2 g1) g2, h3⟩
    · rw [g5 h]
      exact ⟨hp, hvb, hn, h1, set_le _ _ _ (set_le _ _ _ h2 g1) g2, h3⟩
    · rw [g6 h]
      exact ⟨hp, hvb, hn, set_le _ _ _ (set_le _ _ _ h1 g1) g2, h2, h3⟩
    · rw [g7 h]
      exact ⟨hp, hvb, hn, set_le _ _ _ (set_le _ _ _ h1 g1) g2, h2, h3⟩
    · rw [g8 h]
      exact ⟨hp, hvb, hn, set_le _ _ _ (set_le _ _ _ h1 g1) g2, h2, h3⟩
    · rw [g9 h]
      exact ⟨hp, hvb, pair_le _ _ g1 g2, h1, h2, h3⟩
    · rw [g10 h]
      exact ⟨hp, pair_le _ _ g1 g2, hn, h1, h2, h3⟩
    · rw [g11 h]
      exact ⟨pair_le _ _ g1 g2, hvb, hn, h1, h2, h3⟩
    · rw [g12 h]
      exact ⟨hp, hvb, hn, h1, h2, h3⟩
    · rw [gout (Or.inr h)]
      exact ⟨hp, hvb, hn, h1, h2, h3⟩

theorem c10_witness : digitsValid (decode_channel10 22566 DisplayState.init) := by
  refine c10_digits_in_range.2 22566 DisplayState.init ?_
  exact ⟨by decide, by decide, by decide, by decide, by decide, by decide⟩

/-- C1: every 4-byte sequence satisfying the tag-bit pattern decodes to a
(channel, value) pair - channel from byte 0's low nibble (high bits) and
3 bits of byte 1, value from 3 bits of byte 1, 6 of byte 2 and 6 of
byte 3 - and re-packing that pair with the inverse encoding reproduces
the original four bytes exactly. -/
theorem c1_frame_roundtrip (b0 b1 b2 b3 : Nat)
    (h0 : b0 < 256) (h1 : b1 < 256) (h2 : b2 < 256) (h3 : b3 < 256)
    (t0 : b0 &&& 0xF0 = 0x00) (t1 : b1 &&& 0xC0 = 0x40)
    (t2 : b2 &&& 0xC0 = 0x80) (t3 : b3 &&& 0xC0 = 0xC0) :
    ∃ ch v, decode_frame [b0, b1, b2, b3] = some (ch, v) ∧
      ch = ((b0 &&& 0x0F) <<< 3) ||| ((b1 &&& 0x38) >>> 3) ∧
      v = (((b1 &&& 0x07) <<< 12) ||| ((b2 &&& 0x3F) <<< 6)) ||| (b3 &&& 0x3F) ∧
      encode_frame ch v = [b0, b1, b2, b3] := by
  have hb0 : b0 < 16 := (tag0_iff b0 h0).mp t0
  have hb1 : 64 ≤ b1 ∧ b1 < 128 := (tag1_iff b1 h1).mp t1
  have hb2 : 128 ≤ b2 ∧ b2 < 192 := (tag2_iff b2 h2).mp t2
  have hb3 : 192 ≤ b3 ∧ b3 < 256 := (tag3_iff b3 h3).mp t3
  refine ⟨_, _, ?_, rfl, rfl, ?_⟩
  · simp only [decode_frame]
    rw [if_neg (by simp [t0]), if_neg (by simp [t1]), if_neg (by simp [t2]),
        if_neg (by simp [t3])]
  · have hch : ((b0 &&& 0x0F) <<< 3) ||| ((b1 &&& 0x38) >>> 3) = 8 * b0 + b1 / 8 % 8 := by
      rw [and_15, Nat.mod_eq_of_lt hb0, and_56_shift b1 h1]
      exact chan_or b0 hb0 _ (Nat.mod_lt _ (by omega))
    have hv : (((b1 &&& 0x07) <<< 12) ||| ((b2 &&& 0x3F) <<< 6)) ||| (b3 &&& 0x3F)
        = 4096 * (b1 % 8) + 64 * (b2 % 64) + b3 % 64 := by
      rw [and_7, and_63, and_63]
      exact val_or _ (Nat.mod_lt _ (by omega)) _ (Nat.mod_lt _ (by omega)) _
        (Nat.mod_lt _ (by omega))
    rw [hch, hv]
    have e0 : (8 * b0 + b1 / 8 % 8) >>> 3 = b0 := by
      rw [shiftR3]; omega
    have eC7 : (8 * b0 + b1 / 8 % 8) &&& 0x07 = b1 / 8 % 8 := by
      rw [and_7]; omega
    have eV12 : (4096 * (b1 % 8) + 64 * (b2 % 64) + b3 % 64) >>> 12 = b1 % 8 := by
      rw [shiftR12]; omega
    have e1 : (0x40 ||| (((8 * b0 + b1 / 8 % 8) &&& 0x07) <<< 3)) |||
        ((4096 * (b1 % 8) + 64 * (b2 % 64) + b3 % 64) >>> 12) = b1 := by
      rw [eC7, eV12, or64 _ (by omega) _ (by omega)]
      omega
    have eV6 : ((4096 * (b1 % 8) + 64 * (b2 % 64) + b3 % 64) >>> 6) &&& 0x3F = b2 % 64 := by
      rw [shiftR6, and_63]; omega
    have e2 : 0x80 ||| (((4096 * (b1 % 8) + 64 * (b2 % 64) + b3 % 64) >>> 6) &&& 0x3F)
        = b2 := by
      rw [eV6, or128 _ (by omega)]
      omega
    have eV0 : (4096 * (b1 % 8) + 64 * (b2 % 64) + b3 % 64) &&& 0x3F = b3 % 64 := by
      rw [and_63]; omega
    have e3 : 0xC0 ||| ((4096 * (b1 % 8) + 64 * (b2 % 64) + b3 % 64) &&& 0x3F) = b3 := by
      rw [eV0, or192 _ (by omega)]
      omega
    simp only [encode_frame, e0, e1, e2, e3]

theorem c1_witness :
    decode_frame [1, 69, 160, 230] = some (8, 22566) ∧
    encode_frame 8 22566 = [1, 69, 160, 230] := by
  obtain ⟨ch, v, hd, hch, hv, he⟩ := c1_frame_roundtrip 1 69 160 230 (by decide) (by decide)
    (by decide) (by decide) (by decide) (by decide) (by decide) (by decide)
  have hch8 : ch = 8 := by rw [hch]; decide
  have hv22566 : v = 22566 := by rw [hv]; decide
  rw [hch8, hv22566] at hd he
  exact ⟨hd, he⟩

/-- C2 counterexample: a valid frame arrives split as 1 byte, a
would-block, then the remaining 3 bytes.  If partial bytes were retained
across calls, the second receive_packet call would complete the frame and
return the packet; instead both calls return none, because input_buffer,
left_to_read and view are locals of receive_packet and a would-block
abandons the partial frame. -/
theorem c2_counterexample :
    (receive_packet [RecvOutcome.chunk [1], RecvOutcome.wouldBlock,
       RecvOutcome.chunk [69, 160, 230], RecvOutcome.wouldBlock]).1 = none ∧
    (receive_packet (receive_packet [RecvOutcome.chunk [1], RecvOutcome.wouldBlock,
       RecvOutcome.chunk [69, 160, 230], RecvOutcome.wouldBlock]).2).1 = none ∧
    decode_frame [1, 69, 160, 230] = some (8, 22566) := by
  decide

/-- C2 amended: partial reads are accumulated only across iterations of
the read loop inside a single receive_packet call: a short read that
delivers some bytes is not an error, and the loop resumes with the
remaining byte count, so a valid frame split into two non-empty chunks
within one call is decoded; but a would-block before 4 bytes are obtained
discards the partial bytes and the next call starts a fresh 4-byte read. -/
theorem c2_partial_read_within_call (ch v : Nat) (c1 c2 : List Nat)
    (rest : List RecvOutcome) (hch : ch < 128) (hv : v < 32768)
    (h1 : c1 ≠ []) (h2 : c2 ≠ []) (hsplit : c1 ++ c2 = encode_frame ch v) :
    receive_packet (RecvOutcome.chunk c1 :: RecvOutcome.chunk c2 :: rest)
      = (some (ch, v), rest) := by
  have hlen : c1.length + c2.length = 4 := by
    have h := congrArg List.length hsplit
    simpa [encode_frame] using h
  have hl1 : c1.length ≠ 0 := by simpa [List.length_eq_zero] using h1
  have hl2 : c2.length ≠ 0 := by simpa [List.length_eq_zero] using h2
  have hrf : recv_frame (RecvOutcome.chunk c1 :: RecvOutcome.chunk c2 :: rest) 4 []
      = (ReadRes.full (c1 ++ c2), rest) := by
    rw [recv_frame_chunk _ _ _ _ (by omega) h1]
    rw [recv_frame_chunk _ _ _ _ (by omega) h2]
    rw [List.take_of_length_le (by omega), List.take_of_length_le (by omega)]
    have hz : 4 - c1.length - c2.length = 0 := by omega
    rw [hz, recv_frame_zero]
    simp
  simp only [receive_packet, hrf]
  rw [hsplit, parse_encode ch v hch hv]

theorem c2_witness :
    receive_packet [RecvOutcome.chunk [1], RecvOutcome.chunk [69, 160, 230]]
      = (some (8, 22566), []) :=
  c2_partial_read_within_call 8 22566 [1] [69, 160, 230] [] (by decide) (by decide)
    (by decide) (by decide) (by decide)

/-- C3 counterexample: the communication loop does not exit on a zero-byte
read (peer close) nor on a transport error: receive_packet swallows both
(returning None) and the loop body never clears `running` or breaks.
After reading a zero-byte close, the loop keeps running and even processes
a later frame; likewise after a socket error. -/
theorem c3_counterexample :
    ((communication_loop_step ⟨[RecvOutcome.chunk [],
        RecvOutcome.chunk [1, 69, 160, 230]], true, DisplayState.init⟩).running = true) ∧
    ((communication_loop_step (communication_loop_step ⟨[RecvOutcome.chunk [],
        RecvOutcome.chunk [1, 69, 160, 230]], true,
        DisplayState.init⟩)).display.prog = [1, 6]) ∧
    ((communication_loop_step (communication_loop_step ⟨[RecvOutcome.err,
        RecvOutcome.chunk [1, 69, 160, 230]], true,
        DisplayState.init⟩)).display.prog = [1, 6]) := by
  decide

/-- C3 amended: a zero-byte read (peer close), a would-block/timeout, and
any other transport error all make receive_packet abandon the current
frame and return no packet (the source logs non-would-block errors); the
communication loop body treats all of them alike, never changes the
running flag, and the loop exits only when `running` is cleared
externally. -/
theorem c3_loop_continues (c : CommState) (s : List RecvOutcome) :
    (communication_loop_step c).running = c.running ∧
    (c.running = false → communication_loop_step c = c) ∧
    (receive_packet (RecvOutcome.chunk [] :: s)).1 = none ∧
    (receive_packet (RecvOutcome.err :: s)).1 = none ∧
    (receive_packet (RecvOutcome.wouldBlock :: s)).1 = none ∧
    (receive_packet (RecvOutcome.timeout :: s)).1 = none := by
  refine ⟨?_, ?_, ?_, ?_, ?_, ?_⟩
  · unfold communication_loop_step
    split
    · split <;> rfl
    · rfl
  · intro h
    unfold communication_loop_step
    rw [h]
    simp
  · simp [receive_packet, recv_frame_closed s 4 [] (by omega)]
  · simp [receive_packet, recv_frame_err s 4 [] (by omega)]
  · simp [receive_packet, recv_frame_wouldBlock s 4 [] (by omega)]
  · simp [receive_packet, recv_frame_timeout s 4 [] (by omega)]

theorem c3_witness :
    communication_loop_step ⟨[], false, DisplayState.init⟩ = ⟨[], false, DisplayState.init⟩ ∧
    (receive_packet [RecvOutcome.chunk []]).1 = none := by
  have h := c3_loop_continues ⟨[], false, DisplayState.init⟩ []
  exact ⟨h.2.1 rfl, h.2.2.1⟩
